import Mathlib

/-!
Verification of the mercado-libre-libreria payment library.

A shallow embedding of the library's TypeScript sources:

* `validators/PaymentValidator.ts` — request validation over untyped JS
  values, embedded in an exception monad (`Except`) so that the points
  where the JavaScript code would throw (`TypeError` on property access
  of `null`/`undefined`, calling `.trim()` on a non-string) are explicit.
* `webhooks/MercadoPagoWebhookHandler.ts` — webhook processing:
  HMAC-SHA256 signature validation (SHA-256 and HMAC are implemented
  executably over `Nat` bytes), JSON-parse gating, event dispatch and
  the payment-status mapping table.  The two platform/external calls —
  `JSON.parse` (returning the declared `WebhookEvent` shape, `none` on a
  parse failure) and the MercadoPago payment lookup — are passed in as
  function parameters.
* `builders/MercadoPagoBuilder.ts` — the stepwise preference/order
  builder, as pure step functions over an explicit state record, with
  precondition failures as `Except.error`.

JavaScript semantics are modelled explicitly where the code relies on
them: truthiness (`||`, `if (!x)`) including the empty string and zero,
`String.prototype.split`, and JS number values as exact rationals `ℚ`
(the validator performs no arithmetic, only comparisons and the
`Number.isInteger` test, for which `ℚ` with `den = 1` is exact).
-/

set_option maxRecDepth 200000

/-! ## A model of untyped JavaScript values -/

/-- An untyped JavaScript value, as the validator receives it
(`data: any`).  Numbers are exact rationals; objects and arrays carry
their own properties / elements. -/
inductive JSVal where
  | null
  | undefined
  | bool (b : Bool)
  | num (q : ℚ)
  | str (s : String)
  | arr (elems : List JSVal)
  | obj (fields : List (String × JSVal))
deriving Repr

/-- JS truthiness: `false`, `0`, `''`, `null`, `undefined` are falsy;
objects and arrays are always truthy. -/
def jsTruthy : JSVal → Bool
  | .null => false
  | .undefined => false
  | .bool b => b
  | .num q => if q = 0 then false else true
  | .str s => if s = "" then false else true
  | .arr _ => true
  | .obj _ => true

/-- JS `typeof`. -/
def jsTypeof : JSVal → String
  | .null => "object"
  | .undefined => "undefined"
  | .bool _ => "boolean"
  | .num _ => "number"
  | .str _ => "string"
  | .arr _ => "object"
  | .obj _ => "object"

/-- Own-property lookup in an object literal (keys are unique in every
object the library builds or receives from `JSON.parse`). -/
def objLookup : List (String × JSVal) → String → JSVal
  | [], _ => .undefined
  | (k', v) :: rest, k => if k = k' then v else objLookup rest k

/-- JS property access `v[k]`: throws a `TypeError` on `null` and
`undefined`; yields the own property (or `undefined`) on objects;
`length` on arrays; `undefined` on the remaining primitives. -/
def jsGetE : JSVal → String → Except String JSVal
  | .null, k => .error ("TypeError: Cannot read properties of null (reading " ++ k ++ ")")
  | .undefined, k => .error ("TypeError: Cannot read properties of undefined (reading " ++ k ++ ")")
  | .obj fields, k => .ok (objLookup fields k)
  | .arr xs, k => .ok (if k = "length" then .num (xs.length : ℚ) else .undefined)
  | _, _ => .ok .undefined

/-- Total version of `jsGetE` (used only to state hypotheses; on the
throwing receivers it answers `undefined`). -/
def jsGetD (v : JSVal) (k : String) : JSVal :=
  match jsGetE v k with
  | .ok r => r
  | .error _ => .undefined

/-- JS `String.prototype.trim` (whitespace per `Char.isWhitespace`),
computed structurally over the character list. -/
def jsTrim (s : String) : String :=
  String.mk (((s.data.dropWhile Char.isWhitespace).reverse.dropWhile Char.isWhitespace).reverse)

/-- JS method call `v.trim()`: defined on strings, a `TypeError`
otherwise. -/
def jsTrimE : JSVal → Except String String
  | .str s => .ok (jsTrim s)
  | _ => .error "TypeError: v.trim is not a function"

/-- Is the value `null` or `undefined`? -/
def isNullOrUndefined : JSVal → Bool
  | .null => true
  | .undefined => true
  | _ => false

/-- JS number-to-string coercion.  Exact for integral values (the only
case any theorem relies on); non-integral rationals are rendered in
`num/den` form as a stand-in for JS float printing. -/
def jsNumToString (q : ℚ) : String :=
  if q.den = 1 then toString q.num else toString q

/-- JS `String(v)` coercion with explicit recursion fuel (structural in
the fuel, so concrete calls evaluate by `decide`/`rfl`).  Array elements
that are `null`/`undefined` render as the empty string inside the
comma-join, per JS `Array.prototype.toString`. -/
def jsToStringF : Nat → JSVal → String
  | _, .null => "null"
  | _, .undefined => "undefined"
  | _, .bool true => "true"
  | _, .bool false => "false"
  | _, .num q => jsNumToString q
  | _, .str s => s
  | _, .obj _ => "[object Object]"
  | 0, .arr _ => ""
  | fuel + 1, .arr xs =>
      String.intercalate "," (xs.map fun v =>
        if isNullOrUndefined v then "" else jsToStringF fuel v)

/-- JS `String(v)` coercion, as used by `RegExp.test` on a non-string
argument.  The fuel bound mirrors the engine's call-stack limit, which
real `Array.prototype.toString` hits on comparably deep nesting; no
theorem below depends on the rendering of arrays nested deeper. -/
def jsToString (v : JSVal) : String := jsToStringF 10000 v

/-! ## PaymentValidator (`validators/PaymentValidator.ts`) -/

/-- The `{isValid, errors}` result of `validatePaymentRequest`. -/
structure ValidationResult where
  isValid : Bool
  errors : List String
deriving Repr, DecidableEq

-- Decidable equality of `Except` results, for concrete evaluation in
-- witnesses.
deriving instance DecidableEq for Except

/-- The email regex `^[^\s@]+@[^\s@]+\.[^\s@]+$` from
`PaymentValidator.isValidEmail`, decided directly: exactly one `@`,
no whitespace, a non-empty local part, and in the domain a `.` that has
at least one character on each side (the character classes exclude only
whitespace and `@`, so dots may appear in any chunk). -/
def isValidEmail (email : String) : Bool :=
  let cs := email.data
  let noWs := cs.all fun c => !c.isWhitespace
  match cs.splitOn '@' with
  | [loc, dom] =>
      noWs && !loc.isEmpty && !dom.isEmpty && ((dom.drop 1).dropLast.contains '.')
  | _ => false

/-- Errors for `item.title` (required, string, trimmed length ≥ 3);
the `trim()` call is reached only on strings, so this branch never
throws once the property access succeeded. -/
def titleErrors (pfx : String) (title : JSVal) : Except String (List String) :=
  if !jsTruthy title then pure [pfx ++ ": título es requerido"]
  else if jsTypeof title ≠ "string" then pure [pfx ++ ": título debe ser una cadena de texto"]
  else do
    let t ← jsTrimE title
    pure (if t.length < 3 then [pfx ++ ": título debe tener al menos 3 caracteres"] else [])

/-- Errors for `item.quantity`: required; then
`!Number.isInteger(q) || q <= 0` (the comparison is only evaluated when
the integer test passed, so the combined condition is: not an integer
greater than zero). -/
def quantityErrors (pfx : String) (quantity : JSVal) : List String :=
  match quantity with
  | .undefined => [pfx ++ ": cantidad es requerida"]
  | .null => [pfx ++ ": cantidad es requerida"]
  | .num q =>
      if q.den = 1 ∧ 0 < q then [] else [pfx ++ ": cantidad debe ser un número entero mayor a 0"]
  | _ => [pfx ++ ": cantidad debe ser un número entero mayor a 0"]

/-- Errors for `item.unit_price`: required; `typeof !== 'number' || <= 0`
rejects first, then `!Number.isInteger` rejects fractional prices. -/
def unitPriceErrors (pfx : String) (price : JSVal) : List String :=
  match price with
  | .undefined => [pfx ++ ": precio unitario es requerido"]
  | .null => [pfx ++ ": precio unitario es requerido"]
  | .num q =>
      if q ≤ 0 then [pfx ++ ": precio unitario debe ser un número mayor a 0"]
      else if q.den ≠ 1 then [pfx ++ ": precio unitario debe ser un número entero"]
      else []
  | _ => [pfx ++ ": precio unitario debe ser un número mayor a 0"]

/-- Errors for the optional `item.description` (if present and a string,
trimmed length must be 0 or ≥ 5). -/
def descriptionErrors (pfx : String) (description : JSVal) : List String :=
  match description with
  | .undefined => []
  | .null => []
  | .str s =>
      if 0 < (jsTrim s).length ∧ (jsTrim s).length < 5 then
        [pfx ++ ": descripción debe tener al menos 5 caracteres o estar vacía"]
      else []
  | _ => [pfx ++ ": descripción debe ser una cadena de texto"]

/-- Errors for the optional `item.id` (if present, a non-empty string). -/
def idErrors (pfx : String) (idv : JSVal) : List String :=
  match idv with
  | .undefined => []
  | .null => []
  | .str s => if (jsTrim s).length = 0 then [pfx ++ ": id no puede estar vacío si se proporciona"] else []
  | _ => [pfx ++ ": id debe ser una cadena de texto"]

/-- `PaymentValidator.validatePaymentItem`: all five field checks, with
their messages accumulated in source order.  Property access throws on a
`null`/`undefined` item (`!item.title` in JS dereferences `item`). -/
def validatePaymentItem (item : JSVal) (index : Nat) : Except String (List String) := do
  let itemPfx := "Item " ++ toString (index + 1)
  let title ← jsGetE item "title"
  let tErrs ← titleErrors itemPfx title
  let quantity ← jsGetE item "quantity"
  let price ← jsGetE item "unit_price"
  let description ← jsGetE item "description"
  let idv ← jsGetE item "id"
  pure (tErrs ++ quantityErrors itemPfx quantity ++ unitPriceErrors itemPfx price
        ++ descriptionErrors itemPfx description ++ idErrors itemPfx idv)

/-- Errors for `customer_info.email` (required, then the regex). -/
def emailErrors (email : JSVal) : List String :=
  if !jsTruthy email then ["Email del cliente es requerido"]
  else if !isValidEmail (jsToString email) then ["Email del cliente no es válido"]
  else []

/-- Errors for `customer_info.name`: required, then
`name.trim().length < 2` — the `trim()` call is NOT guarded by a
`typeof` check, so a truthy non-string name throws. -/
def nameErrors (name : JSVal) : Except String (List String) :=
  if !jsTruthy name then pure ["Nombre del cliente es requerido"]
  else do
    let t ← jsTrimE name
    pure (if t.length < 2 then ["Nombre del cliente debe tener al menos 2 caracteres"] else [])

/-- The `forEach` over `data.items`, accumulating every item's errors in
order (push-append, no short-circuit). -/
def forEachItems : List JSVal → Nat → Except String (List String)
  | [], _ => .ok []
  | it :: rest, i => do
      let es ← validatePaymentItem it i
      let more ← forEachItems rest (i + 1)
      pure (es ++ more)

/-- The `items` block of `validatePaymentRequest`: required / must be an
array / must be non-empty / validate each item. -/
def itemsErrors (items : JSVal) : Except String (List String) :=
  if !jsTruthy items then pure ["items es requerido"]
  else
    match items with
    | .arr xs =>
        if xs.length = 0 then pure ["Debe incluir al menos un item"]
        else forEachItems xs 0
    | _ => pure ["items debe ser un array"]

/-- The `customer_info` block of `validatePaymentRequest`. -/
def customerErrors (ci : JSVal) : Except String (List String) :=
  if !jsTruthy ci then pure ["customer_info es requerido"]
  else do
    let email ← jsGetE ci "email"
    let name ← jsGetE ci "name"
    let nErrs ← nameErrors name
    pure (emailErrors email ++ nErrs)

/-- `PaymentValidator.validatePaymentRequest`: accumulates the
customer-info errors and the per-item errors and returns
`{isValid: errors.length === 0, errors}`.  In the exception monad:
`.error` marks the inputs on which the JavaScript would throw. -/
def validatePaymentRequest (data : JSVal) : Except String ValidationResult := do
  let ci ← jsGetE data "customer_info"
  let cErrs ← customerErrors ci
  let items ← jsGetE data "items"
  let iErrs ← itemsErrors items
  let errors := cErrs ++ iErrs
  pure { isValid := errors.isEmpty, errors := errors }

/-! ## SHA-256 and HMAC-SHA256 (Node `crypto.createHmac('sha256', …)`)

An executable SHA-256 over `Nat` bytes (each `< 256`), with 32-bit
words represented as `Nat` masked to 32 bits, followed by the standard
HMAC construction and lowercase-hex rendering — the digest pipeline the
webhook handler invokes as
`createHmac('sha256', secret).update(manifest).digest('hex')`. -/

/-- `2^32 - 1`, the 32-bit word mask. -/
def mask32 : Nat := 4294967295

/-- 32-bit modular addition. -/
def add32 (a b : Nat) : Nat := (a + b) &&& mask32

/-- 32-bit right rotation by `k` (for `0 < k < 32` and `n < 2^32`). -/
def rotr (k n : Nat) : Nat := ((n >>> k) ||| (n <<< (32 - k))) &&& mask32

/-- SHA-256 `Ch(x,y,z) = (x ∧ y) ⊕ (¬x ∧ z)`. -/
def shaCh (x y z : Nat) : Nat := (x &&& y) ^^^ ((x ^^^ mask32) &&& z)

/-- SHA-256 `Maj(x,y,z)`. -/
def shaMaj (x y z : Nat) : Nat := (x &&& y) ^^^ (x &&& z) ^^^ (y &&& z)

/-- SHA-256 `Σ₀`. -/
def bigSigma0 (x : Nat) : Nat := rotr 2 x ^^^ rotr 13 x ^^^ rotr 22 x

/-- SHA-256 `Σ₁`. -/
def bigSigma1 (x : Nat) : Nat := rotr 6 x ^^^ rotr 11 x ^^^ rotr 25 x

/-- SHA-256 `σ₀`. -/
def smallSigma0 (x : Nat) : Nat := rotr 7 x ^^^ rotr 18 x ^^^ (x >>> 3)

/-- SHA-256 `σ₁`. -/
def smallSigma1 (x : Nat) : Nat := rotr 17 x ^^^ rotr 19 x ^^^ (x >>> 10)

/-- The 64 SHA-256 round constants. -/
def shaK : List Nat :=
  [1116352408, 1899447441, 3049323471, 3921009573, 961987163, 1508970993,
   2453635748, 2870763221, 3624381080, 310598401, 607225278, 1426881987,
   1925078388, 2162078206, 2614888103, 3248222580, 3835390401, 4022224774,
   264347078, 604807628, 770255983, 1249150122, 1555081692, 1996064986,
   2554220882, 2821834349, 2952996808, 3210313671, 3336571891, 3584528711,
   113926993, 338241895, 666307205, 773529912, 1294757372, 1396182291,
   1695183700, 1986661051, 2177026350, 2456956037, 2730485921, 2820302411,
   3259730800, 3345764771, 3516065817, 3600352804, 4094571909, 275423344,
   430227734, 506948616, 659060556, 883997877, 958139571, 1322822218,
   1537002063, 1747873779, 1955562222, 2024104815, 2227730452, 2361852424,
   2428436474, 2756734187, 3204031479, 3329325298]

/-- The SHA-256 initial hash value. -/
def shaH0 : List Nat :=
  [1779033703, 3144134277, 1013904242, 2773480762,
   1359893119, 2600822924, 528734635, 1541459225]

/-- Big-endian grouping of bytes into 32-bit words. -/
def bytesToWords : List Nat → List Nat
  | a :: b :: c :: d :: rest => (a * 16777216 + b * 65536 + c * 256 + d) :: bytesToWords rest
  | _ => []

/-- Extend a 16-word block to the 64-word message schedule (`n` more
words to append). -/
def extendSchedule : Nat → List Nat → List Nat
  | 0, w => w
  | n + 1, w =>
      let i := w.length
      let x := add32 (add32 (w.getD (i - 16) 0) (smallSigma0 (w.getD (i - 15) 0)))
                     (add32 (w.getD (i - 7) 0) (smallSigma1 (w.getD (i - 2) 0)))
      extendSchedule n (w ++ [x])

/-- One SHA-256 round on the working variables. -/
def roundStep (st : Nat × Nat × Nat × Nat × Nat × Nat × Nat × Nat) (kw : Nat × Nat) :
    Nat × Nat × Nat × Nat × Nat × Nat × Nat × Nat :=
  let (a, b, c, d, e, f, g, h) := st
  let t1 := add32 h (add32 (bigSigma1 e) (add32 (shaCh e f g) (add32 kw.1 kw.2)))
  let t2 := add32 (bigSigma0 a) (shaMaj a b c)
  (add32 t1 t2, a, b, c, add32 d t1, e, f, g)

/-- The SHA-256 compression function on one 64-byte block. -/
def compress (h : List Nat) (block : List Nat) : List Nat :=
  let w := extendSchedule 48 (bytesToWords block)
  let st0 := (h.getD 0 0, h.getD 1 0, h.getD 2 0, h.getD 3 0,
              h.getD 4 0, h.getD 5 0, h.getD 6 0, h.getD 7 0)
  let (a, b, c, d, e, f, g, hh) := (shaK.zip w).foldl roundStep st0
  [add32 (h.getD 0 0) a, add32 (h.getD 1 0) b, add32 (h.getD 2 0) c, add32 (h.getD 3 0) d,
   add32 (h.getD 4 0) e, add32 (h.getD 5 0) f, add32 (h.getD 6 0) g, add32 (h.getD 7 0) hh]

/-- SHA-256 padding: `0x80`, zeros to 56 mod 64, then the 64-bit
big-endian bit length. -/
def sha256Pad (msg : List Nat) : List Nat :=
  let L := msg.length
  let k := (119 - (L % 64)) % 64
  let bits := L * 8
  msg ++ [128] ++ List.replicate k 0 ++
    [(bits >>> 56) &&& 255, (bits >>> 48) &&& 255, (bits >>> 40) &&& 255, (bits >>> 32) &&& 255,
     (bits >>> 24) &&& 255, (bits >>> 16) &&& 255, (bits >>> 8) &&& 255, bits &&& 255]

/-- Fold the compression function over the padded message, 64 bytes at a
time.  The fuel (first argument) is structural so that concrete digests
evaluate by `rfl`; passing the padded length (≥ the number of blocks)
makes it inexhaustible. -/
def processBlocks : Nat → List Nat → List Nat → List Nat
  | 0, h, _ => h
  | _, h, [] => h
  | fuel + 1, h, l => processBlocks fuel (compress h (l.take 64)) (l.drop 64)

/-- A 32-bit word as four big-endian bytes. -/
def wordBytes (w : Nat) : List Nat :=
  [(w >>> 24) &&& 255, (w >>> 16) &&& 255, (w >>> 8) &&& 255, w &&& 255]

/-- SHA-256 of a byte list, as the 32 digest bytes. -/
def sha256 (msg : List Nat) : List Nat :=
  let padded := sha256Pad msg
  ((processBlocks padded.length shaH0 padded).map wordBytes).flatten

/-- HMAC-SHA256 (RFC 2104) with a 64-byte block size. -/
def hmacSha256 (key msg : List Nat) : List Nat :=
  let k0 := if key.length > 64 then sha256 key else key
  let k := k0 ++ List.replicate (64 - k0.length) 0
  let ipad := k.map (· ^^^ 0x36)
  let opad := k.map (· ^^^ 0x5c)
  sha256 (opad ++ sha256 (ipad ++ msg))

/-- One lowercase hex digit. -/
def hexChar (n : Nat) : Char := if n < 10 then Char.ofNat (48 + n) else Char.ofNat (87 + n)

/-- Bytes to a lowercase hex string (Node's `digest('hex')`). -/
def bytesToHex (bs : List Nat) : String :=
  String.mk ((bs.map fun b => [hexChar (b >>> 4), hexChar (b &&& 15)]).flatten)

/-- UTF-8 encoding of one scalar value. -/
def utf8EncodeChar (c : Char) : List Nat :=
  let n := c.toNat
  if n < 128 then [n]
  else if n < 2048 then [192 ||| (n >>> 6), 128 ||| (n &&& 63)]
  else if n < 65536 then [224 ||| (n >>> 12), 128 ||| ((n >>> 6) &&& 63), 128 ||| (n &&& 63)]
  else [240 ||| (n >>> 18), 128 ||| ((n >>> 12) &&& 63), 128 ||| ((n >>> 6) &&& 63), 128 ||| (n &&& 63)]

/-- A string's UTF-8 bytes (what `crypto.createHmac(...).update(string)`
hashes). -/
def strBytes (s : String) : List Nat := (s.data.map utf8EncodeChar).flatten

/-- The hex HMAC-SHA256 of a string under a string secret —
`createHmac('sha256', secret).update(msg).digest('hex')`. -/
def hmacHexStr (secret msg : String) : String :=
  bytesToHex (hmacSha256 (strBytes secret) (strBytes msg))

/-! ## Webhook handler (`webhooks/MercadoPagoWebhookHandler.ts`)

The handler is stateless; its two external calls are parameters:

* `jparse : String → Option WebhookEvent` models `JSON.parse` at the
  declared `WebhookEvent` shape (`none` = the body is not valid JSON);
* `fetch : String → Option PaymentInfo` models `getPaymentInfo`
  (the MercadoPago payment lookup; `none` = not found / API error);
* `now : String` models `new Date().toISOString()`. -/

/-- The webhook request headers, as the `Record<string, string>` built
by `Object.fromEntries(request.headers.entries())` (keys unique). -/
def Headers := List (String × String)

/-- Header lookup `headers[k]`: `none` models `undefined`. -/
def hget : List (String × String) → String → Option String
  | [], _ => none
  | (k', v) :: rest, k => if k = k' then some v else hget rest k

/-- Truthy header lookup: the value when present and non-empty, else
`none` (`''` is falsy, so `headers[k] || fallback` skips it). -/
def hgetT (h : List (String × String)) (k : String) : Option String :=
  match hget h k with
  | some s => if s = "" then none else some s
  | none => none

/-- `o || d` for an `Option String` whose `some ""` counts as falsy. -/
def jsOrStr (o : Option String) (d : String) : String :=
  match o with
  | some s => if s = "" then d else s
  | none => d

/-- `o || null` for an `Option String`: `some ""` collapses to `none`. -/
def truthyOpt (o : Option String) : Option String :=
  match o with
  | some s => if s = "" then none else some s
  | none => none

/-- `WebhookConfig`: the optional `webhookSecret` is modelled as a
`String` whose empty value stands for unset/empty (both falsy at the
only use `if (!this.config.webhookSecret)`); the optional
`enableSignatureValidation` as a `Bool` (`undefined` is falsy). -/
structure WebhookConfig where
  accessToken : String
  webhookSecret : String
  enableSignatureValidation : Bool
deriving Repr, DecidableEq

/-- The `data` member of a webhook event (`data?: { id: string }`). -/
structure EventData where
  id : String
deriving Repr, DecidableEq

/-- A parsed webhook event at its declared TypeScript shape. -/
structure WebhookEvent where
  id : Option Int
  type : String
  action : Option String
  data : Option EventData
  live_mode : Option Bool
  date_created : Option String
  user_id : Option Int
  api_version : Option String
deriving Repr, DecidableEq

/-- The payer object of a fetched payment. -/
structure PayerInfo where
  email : Option String
deriving Repr, DecidableEq

/-- The fields of the MercadoPago payment lookup response that
`handlePaymentWebhook` reads. -/
structure PaymentInfo where
  status : String
  external_reference : Option String
  transaction_amount : Option ℚ
  currency_id : Option String
  payment_method_id : Option String
  payer : Option PayerInfo
deriving Repr, DecidableEq

/-- The member names of `Object.prototype` (ECMA-262, with the Annex B
accessors): reading any of these keys on a plain object literal that
has no own property of that name yields the inherited member — a
function, or for `__proto__` the prototype object itself — every one
of them truthy and none of them a string. -/
def objectPrototypeKeys : List String :=
  ["constructor", "hasOwnProperty", "isPrototypeOf", "propertyIsEnumerable",
   "toLocaleString", "toString", "valueOf", "__proto__",
   "__defineGetter__", "__defineSetter__", "__lookupGetter__", "__lookupSetter__"]

/-- The runtime value `mapPaymentStatus` produces: a string (an own
entry of the table, or the `unknown` fallback), or — when the input is
one of the `Object.prototype` member names — the truthy inherited
member, which is not a string at all despite the function's declared
`string` return type. -/
inductive MappedStatus where
  | str (s : String)
  | protoMember (name : String)
deriving Repr, DecidableEq

/-- `WebhookLogData`: the normalized log record (optional fields are
`none` until the payment lookup fills them). -/
structure WebhookLogData where
  webhook_id : String
  payment_id : Option String
  topic : String
  action : Option String
  live_mode : Bool
  user_id : Option String
  api_version : Option String
  date_created : String
  external_reference : Option String := none
  status : Option String := none
  mapped_status : Option MappedStatus := none
  transaction_amount : Option ℚ := none
  currency_id : Option String := none
  payment_method_id : Option String := none
  payer_email : Option String := none
  error_message : Option String := none
  raw_data : WebhookEvent
  headers_received : List (String × String)
  processed_at : String
deriving Repr, DecidableEq

/-- The `data` payload of a processed webhook. -/
structure WebhookResult where
  webhook_log : WebhookLogData
  payment_info : Option PaymentInfo
  mapped_status : Option MappedStatus
deriving Repr, DecidableEq

/-- The uniform `{success, status, message, error?, data?}` result. -/
structure WebhookProcessResult where
  success : Bool
  status : Nat
  message : String
  error : Option String := none
  data : Option WebhookResult := none
deriving Repr, DecidableEq

/-- JS `String.prototype.split` with a one-character separator
(splitting never yields an empty list: `''.split(c) === ['']`). -/
def splitCharAux (sep : Char) : List Char → List Char → List String
  | [], acc => [String.mk acc.reverse]
  | c :: cs, acc =>
      if c = sep then String.mk acc.reverse :: splitCharAux sep cs []
      else splitCharAux sep cs (c :: acc)

/-- `s.split(sep)` for a single-character separator. -/
def jsSplit (sep : Char) (s : String) : List String := splitCharAux sep s.data []

/-- `mapPaymentStatus`'s fixed `statusMapping` table, in source order. -/
def statusMapping : List (String × String) :=
  [("approved", "approved"),
   ("rejected", "rejected"),
   ("cancelled", "cancelled"),
   ("authorized", "approved"),
   ("in_process", "pending"),
   ("in_mediation", "pending"),
   ("refunded", "refunded"),
   ("charged_back", "chargeback"),
   ("pending", "pending")]

/-- First-match lookup among the own properties of an object literal
(the literal's keys are distinct, so first-match equals last-write). -/
def lookupTable : List (String × String) → String → Option String
  | [], _ => none
  | (k, v) :: rest, s => if s = k then some v else lookupTable rest s

/-- A property read `obj[key]` on a plain object literal with string
values, per ECMA-262 OrdinaryGet: the own entry when present, else the
member inherited from `Object.prototype`, else `undefined`. -/
def objIndexRead (own : List (String × String)) (key : String) : Option MappedStatus :=
  match lookupTable own key with
  | some v => some (.str v)
  | none => if key ∈ objectPrototypeKeys then some (.protoMember key) else none

/-- `mapPaymentStatus`: `statusMapping[status] || 'unknown'`.  An own
entry (all are non-empty, hence truthy) is returned as is; an inherited
`Object.prototype` member is truthy too, so the `||` keeps it; only the
`undefined` of a genuinely absent key falls through to `unknown`. -/
def mapPaymentStatus (mercadoPagoStatus : String) : MappedStatus :=
  match objIndexRead statusMapping mercadoPagoStatus with
  | some (.str v) => if v = "" then .str "unknown" else .str v
  | some (.protoMember n) => .protoMember n
  | none => .str "unknown"

/-- `extractDataIdFromBody`: `JSON.parse(body).data?.id || ''`, with
`''` on a parse failure (the `try/catch`) or a missing id. -/
def extractDataIdFromBody (jparse : String → Option WebhookEvent) (body : String) : String :=
  match jparse body with
  | none => ""
  | some v =>
      match v.data with
      | some d => d.id
      | none => ""

/-- The result object of `validateSignature`. -/
structure SigResult where
  isValid : Bool
  error : Option String := none
deriving Repr, DecidableEq

/-- `headers['x-signature'] || headers['X-Signature']` (an empty header
value is falsy and falls through). -/
def sigHeaderValue (headers : List (String × String)) : Option String :=
  match hgetT headers "x-signature" with
  | some s => some s
  | none => hgetT headers "X-Signature"

/-- The `for (const part of parts)` loop: split each part at `=`, keep
the last `ts` and `v1` assignments.  A part with no `=` assigns the JS
`undefined`, modelled as `""` (both are falsy at the only test). -/
def parseSigParts : List String → String × String → String × String
  | [], acc => acc
  | part :: rest, (ts, v1) =>
      let kv := jsSplit '=' part
      let key := kv.getD 0 ""
      let value := kv.getD 1 ""
      if key = "ts" then parseSigParts rest (value, v1)
      else if key = "v1" then parseSigParts rest (ts, value)
      else parseSigParts rest (ts, v1)

/-- The `(timestamp, receivedSignature)` extracted from an `x-signature`
header value of the form `ts=<epoch>,v1=<hex>`. -/
def sigTsV1 (signature : String) : String × String :=
  parseSigParts (jsSplit ',' signature) ("", "")

/-- The canonical manifest
`id:<dataId>;request-id:<x-request-id>;ts:<timestamp>;` where the data
id comes from the `data_id` header when truthy, else from the body. -/
def sigManifest (jparse : String → Option WebhookEvent) (body : String)
    (headers : List (String × String)) (timestamp : String) : String :=
  "id:" ++ jsOrStr (hget headers "data_id") (extractDataIdFromBody jparse body)
    ++ ";request-id:" ++ jsOrStr (hget headers "x-request-id") ""
    ++ ";ts:" ++ timestamp ++ ";"

/-- The `result |= expected.charCodeAt(i) ^ received.charCodeAt(i)`
loop of `safeCompare`. -/
def safeCompareAux : List (Char × Char) → Nat → Nat
  | [], r => r
  | p :: ps, r => safeCompareAux ps (r ||| (p.1.toNat ^^^ p.2.toNat))

/-- `safeCompare`: length check, then the constant-time XOR fold. -/
def safeCompare (expected received : String) : Bool :=
  if expected.length ≠ received.length then false
  else safeCompareAux (expected.data.zip received.data) 0 == 0

/-- `validateSignature`: skip when no secret is configured; require a
truthy `x-signature` header carrying non-empty `ts` and `v1`
components; compare the received `v1` against the hex HMAC-SHA256 of
the manifest under the secret.  (The surrounding `try/catch` is
unreachable in this total model.) -/
def validateSignature (cfg : WebhookConfig) (jparse : String → Option WebhookEvent)
    (body : String) (headers : List (String × String)) : SigResult :=
  if cfg.webhookSecret = "" then { isValid := true }
  else
    match sigHeaderValue headers with
    | none => { isValid := false, error := some "Missing x-signature header" }
    | some signature =>
        let tv := sigTsV1 signature
        if tv.1 = "" ∨ tv.2 = "" then
          { isValid := false, error := some "Invalid signature format" }
        else
          let manifest := sigManifest jparse body headers tv.1
          let expectedSignature := hmacHexStr cfg.webhookSecret manifest
          { isValid := safeCompare expectedSignature tv.2 }

/-- `handlePaymentWebhook`: fetch the payment, map its status, extend
the log record; a failed lookup is a structured 400. -/
def handlePaymentWebhook (fetch : String → Option PaymentInfo) (paymentId : String)
    (baseLogData : WebhookLogData) : WebhookProcessResult :=
  match fetch paymentId with
  | none =>
      { success := false
        status := 400
        message := "Failed to fetch payment information from MercadoPago"
        error := some "Payment not found or API error"
        data := some
          { webhook_log :=
              { baseLogData with
                  status := some "error"
                  error_message := some "Failed to fetch payment info" }
            payment_info := none
            mapped_status := none } }
  | some paymentInfo =>
      let mappedStatus := mapPaymentStatus paymentInfo.status
      let completeLogData :=
        { baseLogData with
            status := some paymentInfo.status
            external_reference := truthyOpt paymentInfo.external_reference
            mapped_status := some mappedStatus
            transaction_amount :=
              match paymentInfo.transaction_amount with
              | some q => if q = 0 then none else some q
              | none => none
            currency_id := truthyOpt paymentInfo.currency_id
            payment_method_id := truthyOpt paymentInfo.payment_method_id
            payer_email := truthyOpt (paymentInfo.payer.bind PayerInfo.email) }
      { success := true
        status := 200
        message := "Payment webhook processed successfully"
        data := some
          { webhook_log := completeLogData
            payment_info := some paymentInfo
            mapped_status := some mappedStatus } }

/-- `handleWebhookEvent`: build the base log record; dispatch `payment`
events with a truthy payment id to `handlePaymentWebhook`; acknowledge
everything else with a 200. -/
def handleWebhookEvent (fetch : String → Option PaymentInfo) (webhookData : WebhookEvent)
    (headers : List (String × String)) (now : String) : WebhookProcessResult :=
  let paymentId := webhookData.data.map EventData.id
  let baseLogData : WebhookLogData :=
    { webhook_id := jsOrStr (webhookData.id.map toString) "unknown"
      payment_id := truthyOpt paymentId
      topic := webhookData.type
      action := truthyOpt webhookData.action
      live_mode := webhookData.live_mode.getD false
      user_id := truthyOpt (webhookData.user_id.map toString)
      api_version := truthyOpt webhookData.api_version
      date_created := jsOrStr webhookData.date_created now
      raw_data := webhookData
      headers_received := headers
      processed_at := now }
  match truthyOpt paymentId with
  | some pid =>
      if webhookData.type = "payment" then handlePaymentWebhook fetch pid baseLogData
      else
        { success := true
          status := 200
          message := "Webhook type " ++ webhookData.type ++ " acknowledged but not processed"
          data := some { webhook_log := baseLogData, payment_info := none, mapped_status := none } }
  | none =>
      { success := true
        status := 200
        message := "Webhook type " ++ webhookData.type ++ " acknowledged but not processed"
        data := some { webhook_log := baseLogData, payment_info := none, mapped_status := none } }

/-- `processWebhook`: the signature gate (when enabled), the JSON-parse
gate, then event dispatch.  The unused `clientIP` parameter is kept for
the source signature. -/
def processWebhook (cfg : WebhookConfig) (jparse : String → Option WebhookEvent)
    (fetch : String → Option PaymentInfo) (requestBody : String)
    (headers : List (String × String)) (now : String)
    (_clientIP : Option String := none) : WebhookProcessResult :=
  let proceed := fun (_ : Unit) =>
    match jparse requestBody with
    | none =>
        { success := false
          status := 400
          message := "Invalid JSON format"
          error := some "Failed to parse webhook JSON" : WebhookProcessResult }
    | some webhookData => handleWebhookEvent fetch webhookData headers now
  if cfg.enableSignatureValidation then
    let signatureValidation := validateSignature cfg jparse requestBody headers
    if signatureValidation.isValid then proceed ()
    else
      { success := false
        status := 403
        message := "Invalid signature"
        error := signatureValidation.error }
  else proceed ()

/-! ## Preference/Order builder (`builders/MercadoPagoBuilder.ts`)

The builder's mutable fields become an explicit `BuilderState`; each
method is a step function, with `throw` as `Except.error`.  External
effects are parameters: the MercadoPago preference-creation response
(`none` = the SDK call threw) and the outcome of the caller-supplied
save callback.  `Date.now()` is the `now` parameter (epoch ms). -/

/-- A validated line item (`PaymentItem`). -/
structure PaymentItem where
  id : Option String
  title : String
  description : Option String
  quantity : ℚ
  unit_price : ℚ
deriving Repr, DecidableEq

/-- `CustomerInfo`. -/
structure CustomerInfo where
  email : String
  name : String
deriving Repr, DecidableEq

/-- A validated `PaymentRequest`. -/
structure PaymentRequest where
  customer_info : CustomerInfo
  items : List PaymentItem
deriving Repr, DecidableEq

/-- The builder's `MercadoPagoConfig` (optional numeric fields as
`Option ℚ`; `x || default` treats `0` as absent). -/
structure MercadoPagoConfig where
  accessToken : String
  baseUrl : String
  WEBHOOK_URL : String
  timeout : Option ℚ := none
  expirationTime : Option ℚ := none
deriving Repr, DecidableEq

/-- `o || d` for an optional JS number (`0` is falsy). -/
def jsOrNum (o : Option ℚ) (d : ℚ) : ℚ :=
  match o with
  | some q => if q = 0 then d else q
  | none => d

/-- An item of the provider preference payload. -/
structure MPItem where
  id : String
  title : String
  description : String
  quantity : ℚ
  unit_price : ℚ
  currency_id : String
deriving Repr, DecidableEq

/-- `back_urls`. -/
structure BackUrls where
  success : String
  failure : String
  pending : String
deriving Repr, DecidableEq

/-- `payment_methods`. -/
structure PaymentMethods where
  installments : ℚ
  excluded_payment_types : List String
deriving Repr, DecidableEq

/-- `metadata` of a built preference. -/
structure PreferenceMetadata where
  customer_email : String
  customer_name : String
  service_category : String
  expiration_minutes : ℚ
  created_at : Nat
  total_items : ℚ
  total_amount : ℚ
deriving Repr, DecidableEq

/-- `MercadoPagoPreferenceData`: the provider preference payload. -/
structure MercadoPagoPreferenceData where
  items : List MPItem
  back_urls : BackUrls
  auto_return : String
  notification_url : String
  payment_methods : PaymentMethods
  date_of_expiration : ℚ
  metadata : PreferenceMetadata
deriving Repr, DecidableEq

/-- An item of the local order (`total_price = quantity * unit_price`). -/
structure OrderItem where
  id : Option String
  title : String
  description : Option String
  quantity : ℚ
  unit_price : ℚ
  total_price : ℚ
deriving Repr, DecidableEq

/-- The local `Order` record. -/
structure Order where
  id : String
  customer_info : CustomerInfo
  items : List OrderItem
  total_amount : ℚ
  total_items : ℚ
  preference_id : String
  status : String
  created_at : Nat
  expires_at : ℚ
deriving Repr, DecidableEq

/-- `buildPreference`'s payload computation: totals by `reduce`, a
synthetic id (`item_<Date.now()>_<index>`) for items lacking one, fixed
`COP` currency, configured URLs, and the expiration window
(`expirationTime || 20` minutes from `now`). -/
def buildPreference (req : PaymentRequest) (cfg : MercadoPagoConfig)
    (now : Nat) : MercadoPagoPreferenceData :=
  let expirationInMinutes := jsOrNum cfg.expirationTime 20
  let expirationDate : ℚ := (now : ℚ) + expirationInMinutes * 60 * 1000
  let totalAmount := req.items.foldl (fun sum item => sum + item.quantity * item.unit_price) 0
  let totalItems := req.items.foldl (fun sum item => sum + item.quantity) 0
  let mercadoPagoItems := (List.range req.items.length).zip req.items |>.map fun p =>
    { id := jsOrStr p.2.id ("item_" ++ toString now ++ "_" ++ toString p.1)
      title := p.2.title
      description := jsOrStr p.2.description p.2.title
      quantity := p.2.quantity
      unit_price := p.2.unit_price
      currency_id := "COP" : MPItem }
  { items := mercadoPagoItems
    back_urls :=
      { success := cfg.baseUrl ++ "/payment/success"
        failure := cfg.baseUrl ++ "/payment/failure"
        pending := cfg.baseUrl ++ "/payment/success" }
    auto_return := "approved"
    notification_url := cfg.WEBHOOK_URL
    payment_methods := { installments := 1, excluded_payment_types := ["ticket"] }
    date_of_expiration := expirationDate
    metadata :=
      { customer_email := req.customer_info.email
        customer_name := req.customer_info.name
        service_category := "web_development"
        expiration_minutes := expirationInMinutes
        created_at := now
        total_items := totalItems
        total_amount := totalAmount } }

/-- `buildOrder`: per-item totals, grand totals by `reduce`, synthetic
order id, status `pending` and the same expiration window. -/
def buildOrder (req : PaymentRequest) (cfg : MercadoPagoConfig) (now : Nat)
    (preferenceId : String) : Order :=
  let orderItems := req.items.map fun item =>
    { id := item.id
      title := item.title
      description := item.description
      quantity := item.quantity
      unit_price := item.unit_price
      total_price := item.quantity * item.unit_price : OrderItem }
  let totalAmount := orderItems.foldl (fun sum item => sum + item.total_price) 0
  let totalItems := orderItems.foldl (fun sum item => sum + item.quantity) 0
  let expirationTime := jsOrNum cfg.expirationTime 20 * 60 * 1000
  { id := "order_" ++ toString now
    customer_info := req.customer_info
    items := orderItems
    total_amount := totalAmount
    total_items := totalItems
    preference_id := preferenceId
    status := "pending"
    created_at := now
    expires_at := (now : ℚ) + expirationTime }

/-- The builder's mutable fields (`saveOrderCallback` tracked as a
presence flag). -/
structure BuilderState where
  preferenceData : Option MercadoPagoPreferenceData := none
  order : Option Order := none
  paymentRequest : Option PaymentRequest := none
  paymentUrl : Option String := none
  saveOrderCallback : Bool := false
deriving Repr, DecidableEq

/-- The state after construction or `reset()`: everything cleared. -/
def resetState : BuilderState := {}

/-- `setPaymentRequest`. -/
def setPaymentRequest (request : PaymentRequest) (s : BuilderState) : BuilderState :=
  { s with paymentRequest := some request }

/-- The preference-creation response (`id`/`init_point` may be absent). -/
structure MPResponse where
  id : Option String
  init_point : Option String
deriving Repr, DecidableEq

/-- `buildPreference()` as a step: requires a stored payment request. -/
def buildPreferenceStep (cfg : MercadoPagoConfig) (now : Nat)
    (s : BuilderState) : Except String BuilderState :=
  match s.paymentRequest with
  | none => .error "Payment request is required"
  | some req => .ok { s with preferenceData := some (buildPreference req cfg now) }

/-- `createPreference()`: requires built preference data; the SDK call's
response is the `resp` parameter (`none` = the call threw).  Inside the
`try`, a missing remote id / `init_point` — or `buildOrder`'s own
precondition throw — is caught and rethrown as the Spanish message. -/
def createPreferenceStep (cfg : MercadoPagoConfig) (now : Nat)
    (resp : Option MPResponse) (s : BuilderState) : Except String BuilderState :=
  match s.preferenceData with
  | none => .error "Preference data must be built first"
  | some _ =>
      match resp with
      | none => .error "Error al crear la preferencia de pago en MercadoPago"
      | some r =>
          match truthyOpt r.id, truthyOpt r.init_point with
          | some pid, some ip =>
              match s.paymentRequest with
              | none => .error "Error al crear la preferencia de pago en MercadoPago"
              | some req =>
                  .ok { s with paymentUrl := some ip, order := some (buildOrder req cfg now pid) }
          | _, _ => .error "Error al crear la preferencia de pago en MercadoPago"

/-- `saveOrder()`: requires a built order; runs the registered callback
(`cbOk` = it did not throw; with no callback the save is a logged
no-op). -/
def saveOrderStep (cbOk : Bool) (s : BuilderState) : Except String BuilderState :=
  match s.order with
  | none => .error "Order must be built first"
  | some _ =>
      if s.saveOrderCallback && !cbOk then .error "Error al guardar la orden en la base de datos"
      else .ok s

/-- `getResult()`: requires both the order and a truthy payment URL. -/
def getResult (s : BuilderState) : Except String (Order × String) :=
  match s.order, truthyOpt s.paymentUrl with
  | some o, some u => .ok (o, u)
  | _, _ => .error "Order and payment URL not available"

/-! ## Concrete fixtures and auxiliary predicates used by the theorems -/

/-- Do two strings have equal length and differ in exactly one
position? -/
def oneByteDiff (s t : String) : Bool :=
  (s.length == t.length) &&
    (((s.data.zip t.data).filter fun p => p.1 != p.2).length == 1)

/-- The customer name does not make `validatePaymentRequest` throw: if
`customer_info` is truthy, its `name` is falsy or a string (a truthy
non-string name reaches the unguarded `name.trim()`). -/
def nameSafe (data : JSVal) : Bool :=
  let ci := jsGetD data "customer_info"
  if jsTruthy ci then
    let nm := jsGetD ci "name"
    !jsTruthy nm || jsTypeof nm == "string"
  else true

/-- The items do not make `validatePaymentRequest` throw: when `items`
is an array, no element is `null`/`undefined` (the item checks start
with `!item.title`, which dereferences the element). -/
def itemsSafe (data : JSVal) : Bool :=
  match jsGetD data "items" with
  | .arr xs => xs.all fun it => !isNullOrUndefined it
  | _ => true

/-- A webhook config with a configured secret and validation enabled. -/
def sigCfg : WebhookConfig :=
  { accessToken := "token", webhookSecret := "test_secret", enableSignatureValidation := true }

/-- `JSON.parse` restricted to bodies that are not valid JSON (the
fixture bodies below are not). -/
def noParse : String → Option WebhookEvent := fun _ => none

/-- `hmacHexStr "test_secret" "id:;request-id:;ts:1;"`. -/
def sigDigestTs1 : String := "9ec977c1420ff0343268ca951e69c2fa03e33c5f482d2bcf2a7a5d60e43bb984"

/-- Headers carrying a signature valid (under `sigCfg`) for any body
with no extractable data id and timestamp `1`. -/
def sigHeaders : List (String × String) := [("x-signature", "ts=1,v1=" ++ sigDigestTs1)]

/-- The same received signature, but with the timestamp tampered to `2`. -/
def sigHeadersTs2 : List (String × String) := [("x-signature", "ts=2,v1=" ++ sigDigestTs1)]

/-- An item with `quantity = 0` and the fractional unit price `21/2`. -/
def itemBothDefects : JSVal :=
  .obj [("title", .str "Libro"), ("quantity", .num 0), ("unit_price", .num (mkRat 21 2))]

/-- A second defective item (title too short after trimming). -/
def itemShortTitle : JSVal :=
  .obj [("title", .str "ab"), ("quantity", .num 1), ("unit_price", .num 5)]

/-- A payload whose two items both carry defects. -/
def accumPayload : JSVal :=
  .obj [("customer_info", .obj [("email", .str "a@b.com"), ("name", .str "Jo")]),
        ("items", .arr [itemBothDefects, itemShortTitle])]

/-- The spec's example request: one `Widget` item, quantity 2, unit
price 100. -/
def exampleRequest : JSVal :=
  .obj [("customer_info", .obj [("email", .str "a@b.com"), ("name", .str "Jo")]),
        ("items", .arr [.obj [("title", .str "Widget"), ("quantity", .num 2),
                              ("unit_price", .num 100)]])]

/-- A builder config for witnesses. -/
def witnessCfg : MercadoPagoConfig :=
  { accessToken := "tok", baseUrl := "https://shop.example", WEBHOOK_URL := "https://shop.example/hook" }

/-- A webhook config with signature validation enabled but no secret
configured. -/
def noSecretCfg (accessToken : String) : WebhookConfig :=
  { accessToken := accessToken, webhookSecret := "", enableSignatureValidation := true }

/-- A webhook config with signature validation disabled. -/
def sigOffCfg : WebhookConfig :=
  { accessToken := "t", webhookSecret := "", enableSignatureValidation := false }

/-- A concrete `payment` event whose `data.id` is the empty string. -/
def emptyIdEvent : WebhookEvent :=
  { id := some 7
    type := "payment"
    action := some "payment.updated"
    data := some ({ id := "" } : EventData)
    live_mode := some true
    date_created := none
    user_id := none
    api_version := none }

/-- A provider lookup that always finds an approved payment (used to
show results do not depend on it). -/
def approvedFetch : String → Option PaymentInfo := fun _ =>
  some { status := "approved"
         external_reference := none
         transaction_amount := none
         currency_id := none
         payment_method_id := none
         payer := none }

/-! ## Helper lemmas -/

/-- Bitwise `or` of naturals is zero exactly when both sides are. -/
theorem nat_or_eq_zero {a b : Nat} : a ||| b = 0 ↔ a = 0 ∧ b = 0 := by
  constructor
  · intro h
    constructor
    · refine Nat.eq_of_testBit_eq fun i => ?_
      have h2 := congrArg (fun n => n.testBit i) h
      simp only [Nat.testBit_or, Nat.zero_testBit, Bool.or_eq_false_iff] at h2
      simp [Nat.zero_testBit, h2.1]
    · refine Nat.eq_of_testBit_eq fun i => ?_
      have h2 := congrArg (fun n => n.testBit i) h
      simp only [Nat.testBit_or, Nat.zero_testBit, Bool.or_eq_false_iff] at h2
      simp [Nat.zero_testBit, h2.2]
  · rintro ⟨rfl, rfl⟩
    rfl

/-- `Char.toNat` (the UTF-16-agnostic code point, what `charCodeAt`
returns on the strings at hand) is injective. -/
theorem char_toNat_inj {a b : Char} (h : a.toNat = b.toNat) : a = b :=
  Char.ext (UInt32.toNat.inj h)

/-- The XOR/OR accumulation loop of `safeCompare` ends at zero exactly
when it started at zero and every character pair agrees. -/
theorem safeCompareAux_eq_zero (l : List (Char × Char)) (r : Nat) :
    safeCompareAux l r = 0 ↔ r = 0 ∧ ∀ p ∈ l, p.1 = p.2 := by
  induction l generalizing r with
  | nil => simp [safeCompareAux]
  | cons p ps ih =>
      simp only [safeCompareAux, ih, nat_or_eq_zero, List.mem_cons]
      constructor
      · rintro ⟨⟨h1, h2⟩, h3⟩
        refine ⟨h1, fun q hq => ?_⟩
        rcases hq with rfl | hq
        · exact char_toNat_inj (Nat.xor_eq_zero.mp h2)
        · exact h3 q hq
      · rintro ⟨h1, h2⟩
        exact ⟨⟨h1, Nat.xor_eq_zero.mpr (congrArg Char.toNat (h2 p (Or.inl rfl)))⟩,
               fun q hq => h2 q (Or.inr hq)⟩

/-- Equal-length character lists that agree pairwise under `zip` are
equal. -/
theorem zip_pointwise_eq : ∀ (a b : List Char), a.length = b.length →
    (∀ p ∈ a.zip b, p.1 = p.2) → a = b := by
  intro a
  induction a with
  | nil =>
      intro b h _
      cases b with
      | nil => rfl
      | cons y ys => simp at h
  | cons x xs ih =>
      intro b h hp
      cases b with
      | nil => simp at h
      | cons y ys =>
          have hxy : x = y := hp (x, y) (by simp)
          have hrest : xs = ys :=
            ih ys (by simpa using h) (fun p hp2 => hp p (by simp [hp2]))
          rw [hxy, hrest]

/-- Pairs drawn by zipping a list with itself agree componentwise. -/
theorem mem_zip_self : ∀ (l : List Char) (p : Char × Char), p ∈ l.zip l → p.1 = p.2 := by
  intro l
  induction l with
  | nil =>
      intro p hp
      simp at hp
  | cons c cs ih =>
      intro p hp
      rcases (by simpa using hp : p = (c, c) ∨ p ∈ cs.zip cs) with rfl | hmem
      · rfl
      · exact ih p hmem

/-- `safeCompare` is a correct string-equality test: it answers `true`
exactly on equal strings. -/
theorem safeCompare_true_iff (a b : String) : safeCompare a b = true ↔ a = b := by
  constructor
  · intro h
    unfold safeCompare at h
    by_cases hl : a.length = b.length
    · rw [if_neg (by simp [hl])] at h
      have h0 : safeCompareAux (a.data.zip b.data) 0 = 0 := by
        simpa using h
      have hpt := (safeCompareAux_eq_zero _ _).mp h0
      have hdata : a.data = b.data := zip_pointwise_eq a.data b.data hl hpt.2
      cases a with
      | mk da =>
          cases b with
          | mk db => exact congrArg String.mk (by simpa using hdata)
    · rw [if_pos (by simpa using hl)] at h
      exact absurd h (by simp)
  · rintro rfl
    unfold safeCompare
    rw [if_neg (by simp)]
    simp only [beq_iff_eq]
    exact (safeCompareAux_eq_zero _ _).mpr ⟨rfl, mem_zip_self a.data⟩

/-- The `reduce`-style fold of `a + f x` equals `a` plus the mapped
sum. -/
theorem foldl_add_map {α : Type} (f : α → ℚ) (l : List α) (a : ℚ) :
    l.foldl (fun s x => s + f x) a = a + (l.map f).sum := by
  induction l generalizing a with
  | nil => simp
  | cons x xs ih => simp [ih, add_assoc]

/-! ## Claim theorems -/

/-- Claim C5 (code bug): each of the nine listed provider statuses maps
to its listed local value, and a status that is neither a table key nor
an `Object.prototype` member name maps to `unknown`; but for the
prototype member names — `toString`, `constructor`, `hasOwnProperty`,
`__proto__`, and the rest — `statusMapping[s]` finds the truthy
inherited member, the `|| 'unknown'` keeps it, and the function returns
that non-string value instead of `unknown`, contradicting the claim and
the function's own declared `string` return type. -/
theorem payment_status_mapping_prototype_leak :
    (mapPaymentStatus "approved" = .str "approved" ∧
     mapPaymentStatus "authorized" = .str "approved" ∧
     mapPaymentStatus "rejected" = .str "rejected" ∧
     mapPaymentStatus "cancelled" = .str "cancelled" ∧
     mapPaymentStatus "in_process" = .str "pending" ∧
     mapPaymentStatus "in_mediation" = .str "pending" ∧
     mapPaymentStatus "refunded" = .str "refunded" ∧
     mapPaymentStatus "charged_back" = .str "chargeback" ∧
     mapPaymentStatus "pending" = .str "pending") ∧
    (mapPaymentStatus "toString" = .protoMember "toString" ∧
     mapPaymentStatus "constructor" = .protoMember "constructor" ∧
     mapPaymentStatus "hasOwnProperty" = .protoMember "hasOwnProperty" ∧
     mapPaymentStatus "__proto__" = .protoMember "__proto__" ∧
     ∀ n : String, MappedStatus.protoMember n ≠ .str "unknown") ∧
    ∀ s : String, s ≠ "approved" → s ≠ "rejected" → s ≠ "cancelled" → s ≠ "authorized" →
      s ≠ "in_process" → s ≠ "in_mediation" → s ≠ "refunded" → s ≠ "charged_back" →
      s ≠ "pending" → s ∉ objectPrototypeKeys → mapPaymentStatus s = .str "unknown" := by
  refine ⟨by decide, ⟨by decide, by decide, by decide, by decide, fun n h => by cases h⟩, ?_⟩
  intro s h1 h2 h3 h4 h5 h6 h7 h8 h9 hproto
  simp [mapPaymentStatus, objIndexRead, statusMapping, lookupTable,
        h1, h2, h3, h4, h5, h6, h7, h8, h9, hproto]

/-- Witness for C5 at the unlisted, non-prototype status `paused`. -/
theorem payment_status_mapping_prototype_leak_witness :
    (("paused" : String) ≠ "approved" ∧ ("paused" : String) ≠ "rejected" ∧
     ("paused" : String) ≠ "cancelled" ∧ ("paused" : String) ≠ "authorized" ∧
     ("paused" : String) ≠ "in_process" ∧ ("paused" : String) ≠ "in_mediation" ∧
     ("paused" : String) ≠ "refunded" ∧ ("paused" : String) ≠ "charged_back" ∧
     ("paused" : String) ≠ "pending" ∧ ("paused" : String) ∉ objectPrototypeKeys) ∧
    mapPaymentStatus "paused" = .str "unknown" :=
  ⟨by refine ⟨?_, ?_, ?_, ?_, ?_, ?_, ?_, ?_, ?_, ?_⟩ <;> decide,
   payment_status_mapping_prototype_leak.2.2 "paused" (by decide) (by decide) (by decide)
     (by decide) (by decide) (by decide) (by decide) (by decide) (by decide) (by decide)⟩

/-- Claim C6: the computed total amount (preference metadata and order)
equals the sum over the items of `quantity * unit_price`, and the
computed total items equals the sum of the quantities. -/
theorem builder_totals_correct (req : PaymentRequest) (cfg : MercadoPagoConfig)
    (now : Nat) (preferenceId : String) :
    (buildPreference req cfg now).metadata.total_amount
        = (req.items.map fun it => it.quantity * it.unit_price).sum ∧
    (buildPreference req cfg now).metadata.total_items
        = (req.items.map PaymentItem.quantity).sum ∧
    (buildOrder req cfg now preferenceId).total_amount
        = (req.items.map fun it => it.quantity * it.unit_price).sum ∧
    (buildOrder req cfg now preferenceId).total_items
        = (req.items.map PaymentItem.quantity).sum := by
  refine ⟨?_, ?_, ?_, ?_⟩
  · simp [buildPreference, foldl_add_map]
  · simp [buildPreference, foldl_add_map]
  · simp only [buildOrder, foldl_add_map, List.map_map, zero_add]
    rfl
  · simp only [buildOrder, foldl_add_map, List.map_map, zero_add]
    rfl

/-- Claim C7: each builder step called without its prerequisite fails
with the error naming that prerequisite: `buildPreference` without a
stored request, `createPreference` without built preference data,
`saveOrder` without a built order, and `getResult` whenever the order
or the payment URL is missing — in particular right after `reset`. -/
theorem builder_step_preconditions :
    (∀ (cfg : MercadoPagoConfig) (now : Nat) (s : BuilderState), s.paymentRequest = none →
        buildPreferenceStep cfg now s = .error "Payment request is required") ∧
    (∀ (cfg : MercadoPagoConfig) (now : Nat) (resp : Option MPResponse) (s : BuilderState),
        s.preferenceData = none →
        createPreferenceStep cfg now resp s = .error "Preference data must be built first") ∧
    (∀ (cbOk : Bool) (s : BuilderState), s.order = none →
        saveOrderStep cbOk s = .error "Order must be built first") ∧
    (∀ s : BuilderState, s.order = none ∨ truthyOpt s.paymentUrl = none →
        getResult s = .error "Order and payment URL not available") := by
  refine ⟨?_, ?_, ?_, ?_⟩
  · intro cfg now s h
    simp [buildPreferenceStep, h]
  · intro cfg now resp s h
    simp [createPreferenceStep, h]
  · intro cbOk s h
    simp [saveOrderStep, h]
  · intro s h
    rcases h with h | h
    · simp [getResult, h]
    · cases ho : s.order with
      | none => simp [getResult, ho]
      | some o => simp [getResult, ho, h]

/-- Witness for C7: the state right after `reset` fails all four steps
with the respective messages. -/
theorem builder_step_preconditions_witness :
    (resetState.paymentRequest = none ∧ resetState.preferenceData = none ∧
     resetState.order = none) ∧
    buildPreferenceStep witnessCfg 0 resetState = .error "Payment request is required" ∧
    createPreferenceStep witnessCfg 0 none resetState = .error "Preference data must be built first" ∧
    saveOrderStep true resetState = .error "Order must be built first" ∧
    getResult resetState = .error "Order and payment URL not available" :=
  ⟨⟨rfl, rfl, rfl⟩,
   builder_step_preconditions.1 witnessCfg 0 resetState rfl,
   builder_step_preconditions.2.1 witnessCfg 0 none resetState rfl,
   builder_step_preconditions.2.2.1 true resetState rfl,
   builder_step_preconditions.2.2.2 resetState (Or.inl rfl)⟩

/-- `handleWebhookEvent` only ever answers 200 or 400. -/
theorem handleWebhookEvent_status (fetch : String → Option PaymentInfo)
    (ev : WebhookEvent) (headers : List (String × String)) (now : String) :
    (handleWebhookEvent fetch ev headers now).status = 200 ∨
    (handleWebhookEvent fetch ev headers now).status = 400 := by
  unfold handleWebhookEvent
  cases htv : truthyOpt (ev.data.map EventData.id) with
  | none => left; simp [htv]
  | some pid =>
      by_cases ht : ev.type = "payment"
      · simp only [htv, ht, if_true]
        unfold handlePaymentWebhook
        cases fetch pid with
        | none => right; simp
        | some pi => left; simp
      · left; simp [htv, ht]

/-- Claim C3: with signature validation enabled but no webhook secret
configured, `validateSignature` accepts everything, so `processWebhook`
never answers a 403 signature rejection — whatever the `x-signature`
header looks like. -/
theorem no_secret_skips_signature_validation
    (accessToken : String) (jparse : String → Option WebhookEvent)
    (fetch : String → Option PaymentInfo) (body : String)
    (headers : List (String × String)) (now : String) :
    validateSignature (noSecretCfg accessToken) jparse body headers = { isValid := true } ∧
    (processWebhook (noSecretCfg accessToken) jparse fetch body headers now).status ≠ 403 := by
  refine ⟨rfl, ?_⟩
  have hv : validateSignature (noSecretCfg accessToken) jparse body headers
      = { isValid := true } := rfl
  unfold processWebhook
  rw [hv]
  cases hp : jparse body with
  | none => simp [hp, noSecretCfg]
  | some ev =>
      rcases handleWebhookEvent_status fetch ev headers now with h | h <;>
        simp [hp, noSecretCfg, h]

/-- Claim C9: a request body that is not valid JSON (and that passes
any enabled signature check) makes `processWebhook` answer the
structured 400 `Invalid JSON format` result instead of letting the
parse exception escape. -/
theorem invalid_json_returns_400
    (cfg : WebhookConfig) (jparse : String → Option WebhookEvent)
    (fetch : String → Option PaymentInfo) (body : String)
    (headers : List (String × String)) (now : String)
    (hparse : jparse body = none)
    (hsig : cfg.enableSignatureValidation = true →
      (validateSignature cfg jparse body headers).isValid = true) :
    processWebhook cfg jparse fetch body headers now =
      { success := false, status := 400, message := "Invalid JSON format",
        error := some "Failed to parse webhook JSON" } := by
  unfold processWebhook
  cases he : cfg.enableSignatureValidation with
  | false => simp [hparse]
  | true => simp [hparse, hsig he]

/-- Witness for C9: an unparseable body with signature validation
disabled. -/
theorem invalid_json_returns_400_witness :
    noParse "AAAA" = none ∧
    processWebhook { accessToken := "t", webhookSecret := "", enableSignatureValidation := false }
        noParse (fun _ => none) "AAAA" [] "now" =
      { success := false, status := 400, message := "Invalid JSON format",
        error := some "Failed to parse webhook JSON" } :=
  ⟨rfl, invalid_json_returns_400 _ noParse (fun _ => none) "AAAA" [] "now" rfl (by decide)⟩

/-- Claim C10: a `payment` event whose `data.id` is missing or empty is
acknowledged with success/200 and a `null` mapped status, and the
result does not depend on the provider payment lookup at all. -/
theorem payment_event_without_id_acknowledged
    (cfg : WebhookConfig) (jparse : String → Option WebhookEvent)
    (fetch fetch' : String → Option PaymentInfo) (ev : WebhookEvent) (body : String)
    (headers : List (String × String)) (now : String)
    (hsig : cfg.enableSignatureValidation = false)
    (hparse : jparse body = some ev)
    (htype : ev.type = "payment")
    (hdata : ev.data = none ∨ ev.data = some { id := "" }) :
    processWebhook cfg jparse fetch body headers now = handleWebhookEvent fetch ev headers now ∧
    (handleWebhookEvent fetch ev headers now).success = true ∧
    (handleWebhookEvent fetch ev headers now).status = 200 ∧
    (handleWebhookEvent fetch ev headers now).data.map WebhookResult.mapped_status = some none ∧
    handleWebhookEvent fetch ev headers now = handleWebhookEvent fetch' ev headers now := by
  have htv : truthyOpt (ev.data.map EventData.id) = none := by
    rcases hdata with h | h <;> simp [h, truthyOpt]
  refine ⟨?_, ?_, ?_, ?_, ?_⟩
  · unfold processWebhook
    simp [hsig, hparse]
  all_goals
    unfold handleWebhookEvent
    simp [htv]

/-- Witness for C10: a concrete `payment` event with an empty data id. -/
theorem payment_event_without_id_acknowledged_witness :
    (sigOffCfg.enableSignatureValidation = false ∧ emptyIdEvent.type = "payment" ∧
     emptyIdEvent.data = some ({ id := "" } : EventData)) ∧
    ((handleWebhookEvent (fun _ => none) emptyIdEvent [] "now").status = 200 ∧
     (handleWebhookEvent (fun _ => none) emptyIdEvent [] "now").data.map
        WebhookResult.mapped_status = some none) :=
  ⟨⟨rfl, rfl, rfl⟩,
   (payment_event_without_id_acknowledged sigOffCfg (fun _ => some emptyIdEvent)
      (fun _ => none) approvedFetch emptyIdEvent "body" [] "now"
      rfl rfl rfl (Or.inr rfl)).2.2.1,
   (payment_event_without_id_acknowledged sigOffCfg (fun _ => some emptyIdEvent)
      (fun _ => none) approvedFetch emptyIdEvent "body" [] "now"
      rfl rfl rfl (Or.inr rfl)).2.2.2.1⟩

/-- Claim C2: with signature validation enabled and a secret
configured, a missing `x-signature` header, a header lacking a
non-empty `ts=` or `v1=` component, or a received `v1` that differs
from the hex HMAC-SHA256 of the manifest under the secret, each make
`processWebhook` answer the structured 403 `Invalid signature` result,
with no parsed event data. -/
theorem invalid_signature_rejected_403
    (cfg : WebhookConfig) (jparse : String → Option WebhookEvent)
    (fetch : String → Option PaymentInfo) (body : String)
    (headers : List (String × String)) (now : String)
    (henable : cfg.enableSignatureValidation = true)
    (hsecret : cfg.webhookSecret ≠ "")
    (hbad : sigHeaderValue headers = none
      ∨ (∃ sig, sigHeaderValue headers = some sig ∧
          ((sigTsV1 sig).1 = "" ∨ (sigTsV1 sig).2 = ""))
      ∨ (∃ sig, sigHeaderValue headers = some sig ∧
          (sigTsV1 sig).2 ≠ hmacHexStr cfg.webhookSecret
            (sigManifest jparse body headers (sigTsV1 sig).1))) :
    (processWebhook cfg jparse fetch body headers now).success = false ∧
    (processWebhook cfg jparse fetch body headers now).status = 403 ∧
    (processWebhook cfg jparse fetch body headers now).message = "Invalid signature" ∧
    (processWebhook cfg jparse fetch body headers now).data = none := by
  have hinv : (validateSignature cfg jparse body headers).isValid = false := by
    unfold validateSignature
    rw [if_neg hsecret]
    rcases hbad with ha | ⟨sig, hs, hempty⟩ | ⟨sig, hs, hneq⟩
    · rw [ha]
    · rw [hs]
      simp only [if_pos hempty]
    · rw [hs]
      by_cases hempty : (sigTsV1 sig).1 = "" ∨ (sigTsV1 sig).2 = ""
      · simp only [if_pos hempty]
      · simp only [if_neg hempty]
        cases hsc : safeCompare
            (hmacHexStr cfg.webhookSecret (sigManifest jparse body headers (sigTsV1 sig).1))
            (sigTsV1 sig).2 with
        | false => rfl
        | true => exact absurd ((safeCompare_true_iff _ _).mp hsc).symm hneq
  unfold processWebhook
  simp [henable, hinv]

/-- Witness for C2: a request with no `x-signature` header at all. -/
theorem invalid_signature_rejected_403_witness :
    (sigCfg.enableSignatureValidation = true ∧ sigCfg.webhookSecret ≠ "" ∧
     sigHeaderValue [] = none) ∧
    ((processWebhook sigCfg noParse (fun _ => none) "AAAA" [] "now").status = 403 ∧
     (processWebhook sigCfg noParse (fun _ => none) "AAAA" [] "now").message
        = "Invalid signature") :=
  ⟨⟨rfl, by decide, rfl⟩,
   (invalid_signature_rejected_403 sigCfg noParse (fun _ => none) "AAAA" [] "now"
      rfl (by decide) (Or.inl rfl)).2.1,
   (invalid_signature_rejected_403 sigCfg noParse (fun _ => none) "AAAA" [] "now"
      rfl (by decide) (Or.inl rfl)).2.2.1⟩

/-- Claim C1 (amended): tampering with the signature-check inputs while
keeping the received `v1` flips the verdict from valid to invalid
exactly when it changes the computed HMAC digest of the manifest: any
tamper (to the `ts` value, the `x-request-id` header, or the body) that
yields a different digest makes `validateSignature` return invalid.
Tampering that leaves the manifest's digest unchanged — in particular
changing body bytes that do not alter the extracted data id, since the
body enters the manifest only through `data.id` — leaves the check
valid (see the counterexample). -/
theorem signature_tamper_digest_change_invalid
    (cfg : WebhookConfig)
    (jparse jparse' : String → Option WebhookEvent)
    (body body' : String) (h h' : List (String × String))
    (sig sig' ts ts' v1 : String)
    (hsecret : cfg.webhookSecret ≠ "")
    (hs : sigHeaderValue h = some sig) (htv : sigTsV1 sig = (ts, v1))
    (hts : ts ≠ "") (hv1 : v1 ≠ "")
    (hs' : sigHeaderValue h' = some sig') (htv' : sigTsV1 sig' = (ts', v1))
    (hts' : ts' ≠ "")
    (hvalid : validateSignature cfg jparse body h = { isValid := true })
    (hdig : hmacHexStr cfg.webhookSecret (sigManifest jparse' body' h' ts')
      ≠ hmacHexStr cfg.webhookSecret (sigManifest jparse body h ts)) :
    validateSignature cfg jparse' body' h' = { isValid := false } := by
  have hexp : hmacHexStr cfg.webhookSecret (sigManifest jparse body h ts) = v1 := by
    unfold validateSignature at hvalid
    rw [if_neg hsecret, hs] at hvalid
    simp only [htv] at hvalid
    rw [if_neg (by simp [hts, hv1])] at hvalid
    have hsc : safeCompare
        (hmacHexStr cfg.webhookSecret (sigManifest jparse body h ts)) v1 = true := by
      have := congrArg SigResult.isValid hvalid
      simpa using this
    exact (safeCompare_true_iff _ _).mp hsc
  unfold validateSignature
  rw [if_neg hsecret, hs']
  simp only [htv']
  rw [if_neg (by simp [hts', hv1])]
  have hsc' : safeCompare
      (hmacHexStr cfg.webhookSecret (sigManifest jparse' body' h' ts')) v1 = false := by
    cases hc : safeCompare
        (hmacHexStr cfg.webhookSecret (sigManifest jparse' body' h' ts')) v1 with
    | false => rfl
    | true =>
        have := (safeCompare_true_iff _ _).mp hc
        rw [hexp] at hdig
        exact absurd this hdig
  rw [hsc']

/-- Witness for C1 (amended): under the configured secret, changing the
`ts` value from `1` to `2` (keeping the received `v1`) changes the
manifest digest, and the check answers invalid. -/
theorem signature_tamper_digest_change_invalid_witness :
    (sigCfg.webhookSecret ≠ "" ∧
     sigHeaderValue sigHeaders = some ("ts=1,v1=" ++ sigDigestTs1) ∧
     sigTsV1 ("ts=1,v1=" ++ sigDigestTs1) = ("1", sigDigestTs1) ∧
     sigHeaderValue sigHeadersTs2 = some ("ts=2,v1=" ++ sigDigestTs1) ∧
     sigTsV1 ("ts=2,v1=" ++ sigDigestTs1) = ("2", sigDigestTs1) ∧
     validateSignature sigCfg noParse "AAAA" sigHeaders = { isValid := true } ∧
     hmacHexStr sigCfg.webhookSecret (sigManifest noParse "AAAA" sigHeadersTs2 "2")
       ≠ hmacHexStr sigCfg.webhookSecret (sigManifest noParse "AAAA" sigHeaders "1")) ∧
    validateSignature sigCfg noParse "AAAA" sigHeadersTs2 = { isValid := false } :=
  ⟨⟨by decide, by decide, by decide, by decide, by decide, by decide, by decide⟩,
   signature_tamper_digest_change_invalid sigCfg noParse noParse "AAAA" "AAAA"
     sigHeaders sigHeadersTs2 ("ts=1,v1=" ++ sigDigestTs1) ("ts=2,v1=" ++ sigDigestTs1)
     "1" "2" sigDigestTs1
     (by decide) (by decide) (by decide) (by decide) (by decide) (by decide) (by decide)
     (by decide) (by decide) (by decide)⟩

/-- Counterexample to C1 as stated: two request bodies differing in a
single byte — neither of which yields an extractable data id, so the
manifest is the same — both pass the signature check under the same
configured secret and headers.  Changing a body byte does NOT flip the
verdict to invalid. -/
theorem signature_body_tamper_counterexample :
    oneByteDiff "AAAA" "AAAB" = true ∧
    validateSignature sigCfg noParse "AAAA" sigHeaders = { isValid := true } ∧
    validateSignature sigCfg noParse "AAAB" sigHeaders = { isValid := true } :=
  ⟨by decide, by decide, by decide⟩

/-- On a non-`null`/`undefined` receiver, property access succeeds with
the total lookup's value. -/
theorem jsGetE_ok (v : JSVal) (k : String) (h : isNullOrUndefined v = false) :
    jsGetE v k = .ok (jsGetD v k) := by
  cases v with
  | null => simp [isNullOrUndefined] at h
  | undefined => simp [isNullOrUndefined] at h
  | bool b => rfl
  | num q => rfl
  | str s => rfl
  | arr xs => rfl
  | obj fs => rfl

/-- A truthy value is neither `null` nor `undefined`. -/
theorem jsTruthy_not_nullish {v : JSVal} (h : jsTruthy v = true) :
    isNullOrUndefined v = false := by
  cases v <;> simp_all [jsTruthy, isNullOrUndefined]

/-- The title checks never throw: the unguarded `trim()` is only
reached on string titles. -/
theorem titleErrors_ok (pfx : String) (title : JSVal) :
    ∃ es, titleErrors pfx title = .ok es := by
  cases title with
  | null => exact ⟨_, rfl⟩
  | undefined => exact ⟨_, rfl⟩
  | bool b => cases b <;> exact ⟨_, rfl⟩
  | num q =>
      unfold titleErrors
      by_cases hq : q = 0 <;> simp [jsTruthy, jsTypeof, hq] <;> exact ⟨_, rfl⟩
  | str s =>
      unfold titleErrors
      by_cases hs : s = "" <;> simp [jsTruthy, jsTypeof, jsTrimE, hs] <;> exact ⟨_, rfl⟩
  | arr xs => exact ⟨_, rfl⟩
  | obj fs => exact ⟨_, rfl⟩

/-- The name check does not throw when the name is falsy or a string. -/
theorem nameErrors_ok (name : JSVal)
    (h : jsTruthy name = false ∨ jsTypeof name = "string") :
    ∃ es, nameErrors name = .ok es := by
  cases name with
  | str s =>
      unfold nameErrors
      by_cases hs : s = "" <;> simp [jsTruthy, jsTrimE, hs] <;> exact ⟨_, rfl⟩
  | null => exact ⟨_, rfl⟩
  | undefined => exact ⟨_, rfl⟩
  | bool b =>
      rcases h with h | h
      · unfold nameErrors
        simp [h]
        exact ⟨_, rfl⟩
      · simp [jsTypeof] at h
  | num q =>
      rcases h with h | h
      · unfold nameErrors
        simp [h]
        exact ⟨_, rfl⟩
      · simp [jsTypeof] at h
  | arr xs =>
      rcases h with h | h
      · simp [jsTruthy] at h
      · simp [jsTypeof] at h
  | obj fs =>
      rcases h with h | h
      · simp [jsTruthy] at h
      · simp [jsTypeof] at h

/-- The customer-info block does not throw provided the name is safe
whenever `customer_info` is truthy. -/
theorem customerErrors_ok (ci : JSVal)
    (h : jsTruthy ci = true →
      (jsTruthy (jsGetD ci "name") = false ∨ jsTypeof (jsGetD ci "name") = "string")) :
    ∃ es, customerErrors ci = .ok es := by
  unfold customerErrors
  cases hci : jsTruthy ci with
  | false =>
      simp only [hci, Bool.not_false, if_true]
      exact ⟨_, rfl⟩
  | true =>
      obtain ⟨nes, hnes⟩ := nameErrors_ok _ (h hci)
      simp [hci, jsGetE_ok _ _ (jsTruthy_not_nullish hci), hnes,
            bind, Except.bind, Functor.map, Except.map]
      exact ⟨_, rfl⟩

/-- Each item check succeeds on a non-`null`/`undefined` item. -/
theorem validatePaymentItem_ok (item : JSVal) (i : Nat)
    (h : isNullOrUndefined item = false) :
    ∃ es, validatePaymentItem item i = .ok es := by
  obtain ⟨tes, htes⟩ := titleErrors_ok ("Item " ++ toString (i + 1)) (jsGetD item "title")
  unfold validatePaymentItem
  simp [jsGetE_ok _ _ h, htes, bind, Except.bind, Functor.map, Except.map]
  exact ⟨_, rfl⟩

/-- The item loop succeeds when no item is `null`/`undefined`. -/
theorem forEachItems_ok (xs : List JSVal) (i : Nat)
    (h : ∀ it ∈ xs, isNullOrUndefined it = false) :
    ∃ L, forEachItems xs i = .ok L := by
  induction xs generalizing i with
  | nil => exact ⟨[], rfl⟩
  | cons x rest ih =>
      obtain ⟨es, hes⟩ := validatePaymentItem_ok x i (h x (by simp))
      obtain ⟨L, hL⟩ := ih (fun it hit => h it (by simp [hit])) (i := i + 1)
      refine ⟨es ++ L, ?_⟩
      simp [forEachItems, hes, hL, bind, Except.bind]
      rfl

/-- The items block does not throw provided array elements are not
`null`/`undefined`. -/
theorem itemsErrors_ok (items : JSVal)
    (h : ∀ xs, items = .arr xs → ∀ it ∈ xs, isNullOrUndefined it = false) :
    ∃ es, itemsErrors items = .ok es := by
  cases items with
  | arr xs =>
      unfold itemsErrors
      by_cases hlen : xs.length = 0
      · simp only [jsTruthy, Bool.not_true, if_false, hlen, if_true]
        exact ⟨_, rfl⟩
      · obtain ⟨L, hL⟩ := forEachItems_ok xs 0 (h xs rfl)
        simp only [jsTruthy, Bool.not_true, if_false, if_neg hlen]
        exact ⟨L, hL⟩
  | null => exact ⟨_, rfl⟩
  | undefined => exact ⟨_, rfl⟩
  | bool b => cases b <;> exact ⟨_, rfl⟩
  | num q =>
      unfold itemsErrors
      by_cases hq : q = 0 <;> simp [jsTruthy, hq] <;> exact ⟨_, rfl⟩
  | str s =>
      unfold itemsErrors
      by_cases hs : s = "" <;> simp [jsTruthy, hs] <;> exact ⟨_, rfl⟩
  | obj fs => exact ⟨_, rfl⟩

/-- Claim C4 (amended): `validatePaymentRequest` returns an
`{isValid, errors}` result — with `isValid` true exactly when `errors`
is empty — for every input on which JavaScript property access and
method calls are defined: any value other than `null`/`undefined`,
whose truthy customer name (if any) is a string, and whose items array
(if any) contains no `null`/`undefined` element.  On `null` or
`undefined` it throws a `TypeError` (see the counterexample). -/
theorem validator_total_on_safe_inputs (v : JSVal)
    (h0 : isNullOrUndefined v = false) (h1 : nameSafe v = true) (h2 : itemsSafe v = true) :
    ∃ r, validatePaymentRequest v = .ok r ∧ r.isValid = r.errors.isEmpty := by
  have hname : jsTruthy (jsGetD v "customer_info") = true →
      (jsTruthy (jsGetD (jsGetD v "customer_info") "name") = false ∨
       jsTypeof (jsGetD (jsGetD v "customer_info") "name") = "string") := by
    intro hci
    unfold nameSafe at h1
    rw [if_pos hci] at h1
    simpa [Bool.or_eq_true, Bool.not_eq_true', beq_iff_eq] using h1
  have hitems : ∀ xs, jsGetD v "items" = .arr xs → ∀ it ∈ xs, isNullOrUndefined it = false := by
    intro xs hxs it hit
    unfold itemsSafe at h2
    rw [hxs] at h2
    simpa using List.all_eq_true.mp h2 it hit
  obtain ⟨ces, hces⟩ := customerErrors_ok (jsGetD v "customer_info") hname
  obtain ⟨ies, hies⟩ := itemsErrors_ok (jsGetD v "items") hitems
  refine ⟨{ isValid := (ces ++ ies).isEmpty, errors := ces ++ ies }, ?_, rfl⟩
  unfold validatePaymentRequest
  simp [jsGetE_ok _ _ h0, hces, hies, bind, Except.bind]
  rfl

/-- Counterexample to C4 as stated: on the input `null` the validator
does not return a result — the very first property access
(`data.customer_info`) throws a `TypeError`. -/
theorem validator_throws_on_null :
    validatePaymentRequest JSVal.null =
      .error "TypeError: Cannot read properties of null (reading customer_info)" := rfl

/-- Witness for C4 (amended) at the spec's example request. -/
theorem validator_total_on_safe_inputs_witness :
    (isNullOrUndefined exampleRequest = false ∧ nameSafe exampleRequest = true ∧
     itemsSafe exampleRequest = true) ∧
    ∃ r, validatePaymentRequest exampleRequest = .ok r ∧ r.isValid = r.errors.isEmpty :=
  ⟨⟨by decide, by decide, by decide⟩,
   validator_total_on_safe_inputs exampleRequest (by decide) (by decide) (by decide)⟩

/-- Every error message produced for any item in the loop appears in
the loop's accumulated output. -/
theorem forEachItems_mem (xs : List JSVal) :
    ∀ (i : Nat) (L : List String), forEachItems xs i = .ok L →
    ∀ (j : Nat) (it : JSVal) (es : List String), xs.get? j = some it →
      validatePaymentItem it (i + j) = .ok es → ∀ e ∈ es, e ∈ L := by
  induction xs with
  | nil =>
      intro i L hL j it es hj
      simp at hj
  | cons x rest ih =>
      intro i L hL j it es hj hval e he
      unfold forEachItems at hL
      cases hx : validatePaymentItem x i with
      | error err => rw [hx] at hL; exact absurd hL (by simp [bind, Except.bind])
      | ok es0 =>
          rw [hx] at hL
          cases hrest : forEachItems rest (i + 1) with
          | error err => rw [hrest] at hL; exact absurd hL (by simp [bind, Except.bind])
          | ok L1 =>
              rw [hrest] at hL
              have hLeq : L = es0 ++ L1 := by
                have : (Except.ok (es0 ++ L1) : Except String (List String)) = .ok L := hL
                simpa using this.symm
              cases j with
              | zero =>
                  have hx' : x = it := by simpa using hj
                  subst hx'
                  have hes : es = es0 := by
                    rw [Nat.add_zero] at hval
                    rw [hval] at hx
                    simpa using hx
                  subst hes
                  rw [hLeq]
                  exact List.mem_append_left _ he
              | succ j' =>
                  have harith : i + (j' + 1) = (i + 1) + j' := by omega
                  rw [harith] at hval
                  have := ih (i + 1) L1 hrest j' it es (by simpa using hj) hval e he
                  rw [hLeq]
                  exact List.mem_append_right _ this

/-- Claim C8: validation errors accumulate across all items — every
message produced for any item of the payload appears in the returned
`errors` list — and a single item with both `quantity = 0` and the
fractional unit price `21/2` produces exactly the quantity message and
the unit-price message; on the two-item payload the returned list
carries both together with the second item's error. -/
theorem validation_errors_accumulate :
    (∀ (data : JSVal) (r : ValidationResult) (xs : List JSVal),
        validatePaymentRequest data = .ok r →
        jsGetD data "items" = .arr xs →
        ∀ (j : Nat) (it : JSVal) (es : List String),
          xs.get? j = some it → validatePaymentItem it j = .ok es →
          ∀ e ∈ es, e ∈ r.errors) ∧
    validatePaymentItem itemBothDefects 0 =
      .ok ["Item 1: cantidad debe ser un número entero mayor a 0",
           "Item 1: precio unitario debe ser un número entero"] ∧
    validatePaymentRequest accumPayload = .ok
      { isValid := false,
        errors := ["Item 1: cantidad debe ser un número entero mayor a 0",
                   "Item 1: precio unitario debe ser un número entero",
                   "Item 2: título debe tener al menos 3 caracteres"] } := by
  refine ⟨?_, by decide, by decide⟩
  intro data r xs hr hitems j it es hj hval e he
  unfold validatePaymentRequest at hr
  cases hci : jsGetE data "customer_info" with
  | error err =>
      rw [hci] at hr
      simp only [bind, Except.bind] at hr
      exact absurd hr (by simp)
  | ok ci =>
      rw [hci] at hr
      simp only [bind, Except.bind] at hr
      cases hce : customerErrors ci with
      | error err =>
          rw [hce] at hr
          exact absurd hr (by simp)
      | ok ces =>
          rw [hce] at hr
          simp only [] at hr
          cases hit : jsGetE data "items" with
          | error err =>
              rw [hit] at hr
              exact absurd hr (by simp)
          | ok items =>
              rw [hit] at hr
              simp only [] at hr
              have hI : items = .arr xs := by
                unfold jsGetD at hitems
                rw [hit] at hitems
                exact hitems
              subst hI
              cases hies : itemsErrors (.arr xs) with
              | error err =>
                  rw [hies] at hr
                  exact absurd hr (by simp)
              | ok ies =>
                  rw [hies] at hr
                  simp only [] at hr
                  have hre : r.errors = ces ++ ies := by
                    have hr2 : r = { isValid := (ces ++ ies).isEmpty, errors := ces ++ ies } := by
                      have := hr.symm
                      simpa [pure, Except.pure] using this
                    rw [hr2]
                  have hxs_ne : xs.length ≠ 0 := by
                    intro h0
                    rw [List.length_eq_zero.mp h0] at hj
                    simp at hj
                  have hfe : forEachItems xs 0 = .ok ies := by
                    unfold itemsErrors at hies
                    simpa [jsTruthy, if_neg hxs_ne] using hies
                  have hmem := forEachItems_mem xs 0 ies hfe j it es hj
                    (by simpa using hval) e he
                  rw [hre]
                  exact List.mem_append_right _ hmem

/-- Witness for C8: on the concrete two-item payload, the first item's
quantity message (produced alongside its unit-price message) appears in
the returned errors list. -/
theorem validation_errors_accumulate_witness :
    (validatePaymentRequest accumPayload = .ok
        { isValid := false,
          errors := ["Item 1: cantidad debe ser un número entero mayor a 0",
                     "Item 1: precio unitario debe ser un número entero",
                     "Item 2: título debe tener al menos 3 caracteres"] } ∧
     jsGetD accumPayload "items" = .arr [itemBothDefects, itemShortTitle] ∧
     validatePaymentItem itemBothDefects 0 = .ok
        ["Item 1: cantidad debe ser un número entero mayor a 0",
         "Item 1: precio unitario debe ser un número entero"]) ∧
    "Item 1: cantidad debe ser un número entero mayor a 0" ∈
      ValidationResult.errors
        { isValid := false,
          errors := ["Item 1: cantidad debe ser un número entero mayor a 0",
                     "Item 1: precio unitario debe ser un número entero",
                     "Item 2: título debe tener al menos 3 caracteres"] } :=
  ⟨⟨by decide, rfl, by decide⟩,
   validation_errors_accumulate.1 accumPayload
     { isValid := false,
       errors := ["Item 1: cantidad debe ser un número entero mayor a 0",
                  "Item 1: precio unitario debe ser un número entero",
                  "Item 2: título debe tener al menos 3 caracteres"] }
     [itemBothDefects, itemShortTitle] (by decide) rfl 0 itemBothDefects
     ["Item 1: cantidad debe ser un número entero mayor a 0",
      "Item 1: precio unitario debe ser un número entero"]
     rfl (by decide) "Item 1: cantidad debe ser un número entero mayor a 0" (by decide)⟩
